import Mathlib

/-!
Shallow embedding of the state-sync reactor
(`internal/statesync/reactor.go`) of the tendermint repository, together
with theorems settling the spec claims about it.

Modelling conventions:
* peer ids (`types.NodeID`) are `Nat`;
* byte strings (hashes, chunk payloads, metadata) are `List Nat`;
* Go `time.Time` is an integer timestamp (`Int`), so that
  `t.Add (-d)` becomes `t - d`;
* Go `int64` heights are `Int` (no overflow is exercised by the claims);
* the cryptographic header hash `block.Hash()` is carried as a data field
  of the embedded light block (it is a pure function of the header, which
  the reactor never recomputes, only compares);
* effectful calls (store writes, channel sends, queue operations) are
  reified as elements of an explicit effect list, in the order the code
  performs them.
-/

namespace StateSync

/-- `types.NodeID`. -/
abbrev NodeID := Nat

/-- Byte strings (`[]byte`). -/
abbrev Bytes := List Nat

/-- `types.BlockID`: only the `Hash` field is read by the reactor
(`trustedBlockID.Hash`), plus equality on the whole value. -/
structure BlockID where
  hash : Bytes
  partSetHeaderTotal : Nat
  partSetHeaderHash : Bytes
deriving DecidableEq, Repr

/-- The part of `types.LightBlock` the backfill loop reads.
`hashVal` is the value of `lb.Hash()` (= the header hash);
`basicValid` records whether `lb.ValidateBasic(chainID)` returns nil
(that check lives in the `types` package, outside this repository's
sources, so it is carried as a field); `validatorSet` is an opaque
identifier of `lb.ValidatorSet`. -/
structure LightBlock where
  height : Int
  hashVal : Bytes
  lastBlockID : BlockID
  validatorsHash : Bytes
  nextValidatorsHash : Bytes
  validatorSet : Nat
  time : Int
  basicValid : Bool
deriving DecidableEq, Repr

/-- `lightBlockResponse`: a fetched block together with the peer that
supplied it. -/
structure lightBlockResponse where
  block : LightBlock
  peer : NodeID
deriving DecidableEq, Repr

/- ### Channel constants (reactor.go lines 39-126) -/

/-- `SnapshotChannel = p2p.ChannelID(0x60)`. -/
def SnapshotChannel : Nat := 0x60

/-- `ChunkChannel = p2p.ChannelID(0x61)`. -/
def ChunkChannel : Nat := 0x61

/-- `LightBlockChannel = p2p.ChannelID(0x62)`. -/
def LightBlockChannel : Nat := 0x62

/-- `ParamsChannel = p2p.ChannelID(0x63)`. -/
def ParamsChannel : Nat := 0x63

/-- `recentSnapshots = 10`. -/
def recentSnapshotsConst : Nat := 10

/-- `snapshotMsgSize = int(4e6)`. -/
def snapshotMsgSize : Nat := 4000000

/-- `chunkMsgSize = int(16e6)`. -/
def chunkMsgSize : Nat := 16000000

/-- `lightBlockMsgSize = int(1e7)`. -/
def lightBlockMsgSize : Nat := 10000000

/-- `paramMsgSize = int(1e5)`. -/
def paramMsgSize : Nat := 100000

/-- `maxLightBlockRequestRetries = 20`. -/
def maxLightBlockRequestRetries : Nat := 20

/-- `p2p.ChannelDescriptor` (the fields set in `ChannelShims`). -/
structure ChannelDescriptor where
  id : Nat
  priority : Nat
  sendQueueCapacity : Nat
  recvMessageCapacity : Nat
  recvBufferCapacity : Nat
  maxSendBytes : Nat
deriving DecidableEq, Repr

/-- The descriptor registered for `SnapshotChannel` in `ChannelShims`. -/
def snapshotChannelDescriptor : ChannelDescriptor :=
  { id := SnapshotChannel
    priority := 6
    sendQueueCapacity := 10
    recvMessageCapacity := snapshotMsgSize
    recvBufferCapacity := 128
    maxSendBytes := 400 }

/-- The descriptor registered for `ChunkChannel` in `ChannelShims`. -/
def chunkChannelDescriptor : ChannelDescriptor :=
  { id := ChunkChannel
    priority := 3
    sendQueueCapacity := 4
    recvMessageCapacity := chunkMsgSize
    recvBufferCapacity := 128
    maxSendBytes := 400 }

/-- The descriptor registered for `LightBlockChannel` in `ChannelShims`. -/
def lightBlockChannelDescriptor : ChannelDescriptor :=
  { id := LightBlockChannel
    priority := 5
    sendQueueCapacity := 10
    recvMessageCapacity := lightBlockMsgSize
    recvBufferCapacity := 128
    maxSendBytes := 400 }

/-- The descriptor registered for `ParamsChannel` in `ChannelShims`. -/
def paramsChannelDescriptor : ChannelDescriptor :=
  { id := ParamsChannel
    priority := 2
    sendQueueCapacity := 10
    recvMessageCapacity := paramMsgSize
    recvBufferCapacity := 128
    maxSendBytes := 400 }

/- ### `Backfill` entry point (reactor.go lines 319-338) -/

/-- `types.EvidenceParams`: the two fields `Backfill` reads. -/
structure EvidenceParams where
  maxAgeNumBlocks : Int
  maxAgeDuration : Int
deriving DecidableEq, Repr

/-- The part of `sm.State` read by `Backfill`. -/
structure State where
  chainID : String
  initialHeight : Int
  lastBlockHeight : Int
  lastBlockTime : Int
  lastBlockID : BlockID
  evidence : EvidenceParams
deriving DecidableEq, Repr

/-- The empty `sm.State{}` value returned on `Sync` error paths. -/
def State.empty : State :=
  { chainID := ""
    initialHeight := 0
    lastBlockHeight := 0
    lastBlockTime := 0
    lastBlockID := { hash := [], partSetHeaderTotal := 0, partSetHeaderHash := [] }
    evidence := { maxAgeNumBlocks := 0, maxAgeDuration := 0 } }

/-- The arguments `Backfill` passes to the private `backfill`. -/
structure BackfillArgs where
  chainID : String
  startHeight : Int
  stopHeight : Int
  initialHeight : Int
  trustedBlockID : BlockID
  stopTime : Int
deriving DecidableEq, Repr

/-- `Reactor.Backfill`: computes the fetch range from the state and
delegates to `backfill`.  Mirrors reactor.go lines 319-338. -/
def Backfill (state : State) : BackfillArgs :=
  let params := state.evidence
  let stopHeight := state.lastBlockHeight - params.maxAgeNumBlocks
  let stopTime := state.lastBlockTime - params.maxAgeDuration
  -- ensure that stop height doesn't go below the initial height
  if stopHeight < state.initialHeight then
    { chainID := state.chainID
      startHeight := state.lastBlockHeight
      stopHeight := state.initialHeight
      initialHeight := state.initialHeight
      trustedBlockID := state.lastBlockID
      stopTime := state.lastBlockTime }
  else
    { chainID := state.chainID
      startHeight := state.lastBlockHeight
      stopHeight := stopHeight
      initialHeight := state.initialHeight
      trustedBlockID := state.lastBlockID
      stopTime := stopTime }

/- ### Backfill verifier loop (reactor.go lines 436-497) -/

/-- Effects performed by one iteration of the backfill verifier loop, in
program order: `PeerError` sends on `blockCh.Error`, `queue.retry`,
`blockStore.SaveSignedHeader`, `stateStore.SaveValidatorSets`, and
`queue.success`. -/
inductive VerifyEffect where
  | peerError (peer : NodeID)
  | retryHeight (h : Int)
  | saveSignedHeader (b : LightBlock) (trustedID : BlockID)
  | saveValidatorSets (lo hi : Int) (vals : Option Nat)
  | successHeight (h : Int)
deriving DecidableEq, Repr

/-- The verifier loop's mutable locals: `trustedBlockID`,
`lastValidatorSet`, `lastChangeHeight`. -/
structure VerifierState where
  trustedBlockID : BlockID
  lastValidatorSet : Option Nat
  lastChangeHeight : Int
deriving DecidableEq, Repr

/-- One iteration of the verifier loop on a `resp := <-queue.verifyNext()`
(reactor.go lines 444-482): check the header hash against the trusted
block id; on mismatch report the peer and retry; on match persist the
signed header, persist the previous validator set when the block's
`ValidatorsHash` and `NextValidatorsHash` differ, advance the trusted
block id to the block's `LastBlockID`, and record success. -/
def verifyStep (s : VerifierState) (resp : lightBlockResponse) :
    VerifierState × List VerifyEffect :=
  if s.trustedBlockID.hash ≠ resp.block.hashVal then
    (s, [.peerError resp.peer, .retryHeight resp.block.height])
  else
    if s.lastValidatorSet.isSome ∧ resp.block.validatorsHash ≠ resp.block.nextValidatorsHash then
      ({ trustedBlockID := resp.block.lastBlockID
         lastValidatorSet := some resp.block.validatorSet
         lastChangeHeight := resp.block.height },
       [.saveSignedHeader resp.block s.trustedBlockID,
        .saveValidatorSets (resp.block.height + 1) s.lastChangeHeight s.lastValidatorSet,
        .successHeight resp.block.height])
    else
      ({ trustedBlockID := resp.block.lastBlockID
         lastValidatorSet := some resp.block.validatorSet
         lastChangeHeight := s.lastChangeHeight },
       [.saveSignedHeader resp.block s.trustedBlockID,
        .successHeight resp.block.height])

/-- The `<-queue.done()` branch of the verifier loop (reactor.go lines
484-495): return the queue's recorded error if any, otherwise persist the
final validator-set range `[queue.terminal.Height, lastChangeHeight]`. -/
def verifierDone (terminalHeight : Int) (s : VerifierState) (queueErr : Option String) :
    Except String (List VerifyEffect) :=
  match queueErr with
  | some e => .error e
  | none => .ok [.saveValidatorSets terminalHeight s.lastChangeHeight s.lastValidatorSet]

/-- Recognizer for `SaveValidatorSets` effects. -/
def isSaveValidatorSets : VerifyEffect → Bool
  | .saveValidatorSets _ _ _ => true
  | _ => false

/-- Follows the spec's words for the validator-set comparison of claim
C2: the verifier state additionally remembers the previously verified
block, and the branch persisting the previous validator set fires when
the PREVIOUS verified block's `validators_hash` differs from its
`next_validators_hash` ("If the previous verified block existed and its
`validators_hash != next_validators_hash` ..."). -/
structure VerifierStateSpecC2 where
  trustedBlockID : BlockID
  lastBlock : Option LightBlock
  lastChangeHeight : Int
deriving DecidableEq, Repr

/-- Follows the spec's words for claim C2 (see `VerifierStateSpecC2`):
identical to `verifyStep` except that the hashes compared are the
previous verified block's `validatorsHash` and `nextValidatorsHash`. -/
def verifyStepSpecC2 (s : VerifierStateSpecC2) (resp : lightBlockResponse) :
    VerifierStateSpecC2 × List VerifyEffect :=
  if s.trustedBlockID.hash ≠ resp.block.hashVal then
    (s, [.peerError resp.peer, .retryHeight resp.block.height])
  else
    match s.lastBlock with
    | some prev =>
      if prev.validatorsHash ≠ prev.nextValidatorsHash then
        ({ trustedBlockID := resp.block.lastBlockID
           lastBlock := some resp.block
           lastChangeHeight := resp.block.height },
         [.saveSignedHeader resp.block s.trustedBlockID,
          .saveValidatorSets (resp.block.height + 1) s.lastChangeHeight (some prev.validatorSet),
          .successHeight resp.block.height])
      else
        ({ trustedBlockID := resp.block.lastBlockID
           lastBlock := some resp.block
           lastChangeHeight := s.lastChangeHeight },
         [.saveSignedHeader resp.block s.trustedBlockID,
          .successHeight resp.block.height])
    | none =>
      ({ trustedBlockID := resp.block.lastBlockID
         lastBlock := some resp.block
         lastChangeHeight := s.lastChangeHeight },
       [.saveSignedHeader resp.block s.trustedBlockID,
        .successHeight resp.block.height])

/- ### Backfill fetch workers (reactor.go lines 366-432) -/

/-- Classification of the error returned by `dispatcher.LightBlock`:
`context.Canceled`, `errNoConnectedPeers`, or any other error. -/
inductive FetchError where
  | canceled
  | noConnectedPeers
  | other (msg : String)
deriving DecidableEq, Repr

/-- Effects performed by one iteration of a fetch worker, in program
order: `peers.Append`, `peers.Remove`, `queue.retry`, `PeerError` on
`blockCh.Error`, `queue.add`, and the 1 s sleep. -/
inductive WorkerEffect where
  | appendPeer (p : NodeID)
  | removePeer (p : NodeID)
  | retryHeight (h : Int)
  | peerError (p : NodeID)
  | addBlock (b : LightBlock) (p : NodeID)
  | sleep
deriving DecidableEq, Repr

/-- One iteration of a backfill fetch worker after
`dispatcher.LightBlock` has returned `(lb, err)` for `height` from
`peer` (reactor.go lines 380-426).  Returns the effects in program order
and whether the worker returns (exits its loop). -/
def workerStep (height : Int) (peer : NodeID) (err : Option FetchError)
    (lb : Option LightBlock) : List WorkerEffect × Bool :=
  -- once the peer has returned a value, add it back to the peer list
  let appended : List WorkerEffect := [.appendPeer peer]
  match err with
  | some .canceled => (appended, true)
  | some .noConnectedPeers => (appended ++ [.retryHeight height, .sleep], false)
  | some (.other _) => (appended ++ [.retryHeight height], false)
  | none =>
    match lb with
    | none =>
      -- peer didn't have the block: retry and drop the peer
      (appended ++ [.retryHeight height, .removePeer peer], false)
    | some b =>
      if ¬ b.basicValid ∨ b.height ≠ height then
        (appended ++ [.retryHeight height, .peerError peer], false)
      else
        (appended ++ [.addBlock b peer], false)

/- ### Top-level Sync (reactor.go lines 251-313) -/

/-- State of the reactor's exclusive mutex `r.mtx` as seen by `Sync`. -/
inductive LockState where
  | unlocked
  | lockedExclusive
deriving DecidableEq, Repr

/-- Acquiring the exclusive reactor mutex: succeeds only when it is not
already held; a second exclusive acquisition blocks forever (no result). -/
def mtxLock : LockState → Option LockState
  | .unlocked => some .lockedExclusive
  | .lockedExclusive => none

/-- Outcomes of the external calls `Sync` makes, in call order:
`initStateProvider`, `syncer.SyncAny` (state and an opaque commit),
`stateStore.Bootstrap`, `blockStore.SaveSeenCommit`, `Backfill`. -/
structure SyncOutcomes where
  initStateProviderErr : Option String
  syncAny : Except String (State × Nat)
  bootstrapErr : Option String
  saveSeenCommitErr : Option String
  backfillErr : Option String
deriving Repr

/-- What `Sync` leaves behind: the returned `(sm.State, error)` pair, the
reactor's `syncer` and `stateProvider` fields, and the mutex state. -/
structure SyncResult where
  retState : State
  retErr : Option String
  syncerAfter : Option Nat
  stateProviderAfter : Option Nat
  lock : LockState
deriving DecidableEq, Repr

/-- `Reactor.Sync` (reactor.go lines 251-313), with the reactor's
`syncer` and `stateProvider` fields as opaque `Option Nat` values and
every external call resolved by `o`.  The mutex is acquired on entry;
the already-in-progress branch and the post-construction point release
it, the `initStateProvider` failure branch returns without releasing it;
the deferred reset clears both fields under a lock/unlock pair on every
path that reaches it.  A `Backfill` error is logged and dropped. -/
def Sync (syncer0 stateProvider0 : Option Nat) (o : SyncOutcomes) : SyncResult :=
  -- r.mtx.Lock()
  if syncer0.isSome then
    -- r.mtx.Unlock(); return sm.State{}, errors.New(...)
    { retState := State.empty
      retErr := some "a state sync is already in progress"
      syncerAfter := syncer0
      stateProviderAfter := stateProvider0
      lock := .unlocked }
  else
    match o.initStateProviderErr with
    | some e =>
      -- return sm.State{}, err -- without r.mtx.Unlock()
      { retState := State.empty
        retErr := some e
        syncerAfter := syncer0
        stateProviderAfter := none
        lock := .lockedExclusive }
    | none =>
      -- r.syncer = newSyncer(...); r.mtx.Unlock(); defer resets both fields
      match o.syncAny with
      | .error e =>
        { retState := State.empty, retErr := some e
          syncerAfter := none, stateProviderAfter := none, lock := .unlocked }
      | .ok (state, _commit) =>
        match o.bootstrapErr with
        | some e =>
          { retState := State.empty
            retErr := some ("failed to bootstrap node with new state: " ++ e)
            syncerAfter := none, stateProviderAfter := none, lock := .unlocked }
        | none =>
          match o.saveSeenCommitErr with
          | some e =>
            { retState := State.empty
              retErr := some ("failed to store last seen commit: " ++ e)
              syncerAfter := none, stateProviderAfter := none, lock := .unlocked }
          | none =>
            -- a Backfill error is only logged: "backfill failed. Proceeding optimistically..."
            { retState := state, retErr := none
              syncerAfter := none, stateProviderAfter := none, lock := .unlocked }

/- ### Snapshot serving (reactor.go lines 503-531 and 893-929) -/

/-- The `snapshot` record (fields mirrored from `abci.Snapshot`). -/
structure Snapshot where
  height : Nat
  format : Nat
  chunks : Nat
  hash : Bytes
  metadata : Bytes
deriving DecidableEq, Repr

/-- The comparison closure passed to `sort.Slice` in `recentSnapshots`:
higher height first, then higher format. -/
def snapshotSortLess (a b : Snapshot) : Bool :=
  if a.height > b.height then true
  else if a.height = b.height ∧ a.format > b.format then true
  else false

/-- The non-strict total preorder induced by `snapshotSortLess`:
`sort.Slice` produces a permutation with no inversion under the `less`
closure, i.e. sorted under `a ≤ b ↔ ¬ less b a`. -/
def snapshotSortLe (a b : Snapshot) : Bool :=
  ! snapshotSortLess b a

/-- `Reactor.recentSnapshots` (reactor.go lines 893-929): sort the
application's snapshots by descending height then descending format and
keep the first `recentSnapshots` (the loop bounds at the package
constant, not at the argument `n`). -/
def recentSnapshots (n : Nat) (appSnapshots : List Snapshot) : List Snapshot :=
  let _ := n
  let sorted := appSnapshots.mergeSort snapshotSortLe
  sorted.take recentSnapshotsConst

/-- `ssproto.SnapshotsResponse`. -/
structure SnapshotsResponseMsg where
  height : Nat
  format : Nat
  chunks : Nat
  hash : Bytes
  metadata : Bytes
deriving DecidableEq, Repr

/-- An envelope on the snapshot channel addressed to one peer. -/
structure SnapshotEnvelope where
  To : NodeID
  message : SnapshotsResponseMsg
deriving DecidableEq, Repr

/-- The snapshot carried by a `SnapshotsResponse` message. -/
def SnapshotsResponseMsg.toSnapshot (m : SnapshotsResponseMsg) : Snapshot :=
  { height := m.height, format := m.format, chunks := m.chunks
    hash := m.hash, metadata := m.metadata }

/-- The `SnapshotsRequest` arm of `handleSnapshotMessage` (reactor.go
lines 507-531): on a listing error nothing is sent; otherwise one
`SnapshotsResponse` envelope per recent snapshot is sent to the
requesting peer. -/
def handleSnapshotsRequest (fromPeer : NodeID)
    (listResult : Except String (List Snapshot)) : List SnapshotEnvelope :=
  match listResult with
  | .error _ => []
  | .ok appSnapshots =>
    (recentSnapshots recentSnapshotsConst appSnapshots).map fun s =>
      { To := fromPeer
        message := { height := s.height, format := s.format, chunks := s.chunks
                     hash := s.hash, metadata := s.metadata } }

/- ### Chunk serving (reactor.go lines 572-615) -/

/-- `ssproto.ChunkRequest`. -/
structure ChunkRequestMsg where
  height : Nat
  format : Nat
  index : Nat
deriving DecidableEq, Repr

/-- `ssproto.ChunkResponse`; `chunk = none` models a nil byte slice. -/
structure ChunkResponseMsg where
  height : Nat
  format : Nat
  index : Nat
  chunk : Option Bytes
  missing : Bool
deriving DecidableEq, Repr

/-- An envelope on the chunk channel addressed to one peer. -/
structure ChunkEnvelope where
  To : NodeID
  message : ChunkResponseMsg
deriving DecidableEq, Repr

/-- The `ChunkRequest` arm of `handleChunkMessage` (reactor.go lines
574-615): on a `LoadSnapshotChunk` error nothing is sent; otherwise one
`ChunkResponse` echoing the request's coordinates is sent to the
requesting peer, with `Missing` set exactly when the returned chunk is
nil. -/
def handleChunkRequest (fromPeer : NodeID) (msg : ChunkRequestMsg)
    (loadResult : Except String (Option Bytes)) : List ChunkEnvelope :=
  match loadResult with
  | .error _ => []
  | .ok chunk =>
    [{ To := fromPeer
       message := { height := msg.height, format := msg.format, index := msg.index
                    chunk := chunk, missing := chunk.isNone } }]

/- ### Recognizers and concrete inputs used by witnesses and counterexamples -/

/-- Recognizer for `SaveSignedHeader` effects. -/
def isSaveSignedHeader : VerifyEffect → Bool
  | .saveSignedHeader _ _ => true
  | _ => false

/-- A trusted block id for the C1 witness. -/
def bidW1 : BlockID :=
  { hash := [5, 6], partSetHeaderTotal := 1, partSetHeaderHash := [7] }

/-- A block whose header hash matches `bidW1`. -/
def blkW1 : LightBlock :=
  { height := 42, hashVal := [5, 6]
    lastBlockID := { hash := [4], partSetHeaderTotal := 0, partSetHeaderHash := [] }
    validatorsHash := [1], nextValidatorsHash := [1], validatorSet := 1
    time := 0, basicValid := true }

/-- Verifier state trusting `bidW1`. -/
def sW1 : VerifierState :=
  { trustedBlockID := bidW1, lastValidatorSet := none, lastChangeHeight := 42 }

/-- The C1 witness response: `blkW1` supplied by peer 3. -/
def respW1 : lightBlockResponse := { block := blkW1, peer := 3 }

/-- The previously verified block for the C2 scenario: verified at
height 101, its own `ValidatorsHash` and `NextValidatorsHash` are EQUAL
(the validator set did not change between heights 101 and 102). -/
def prevBlkC2 : LightBlock :=
  { height := 101, hashVal := [8]
    lastBlockID := { hash := [9], partSetHeaderTotal := 0, partSetHeaderHash := [] }
    validatorsHash := [2], nextValidatorsHash := [2], validatorSet := 2
    time := 0, basicValid := true }

/-- The next block to verify, at height 100: its `ValidatorsHash`
differs from its `NextValidatorsHash` (the validator set changed between
heights 100 and 101), and its header hash matches the trusted id left by
`prevBlkC2`. -/
def curBlkC2 : LightBlock :=
  { height := 100, hashVal := [9]
    lastBlockID := { hash := [10], partSetHeaderTotal := 0, partSetHeaderHash := [] }
    validatorsHash := [1], nextValidatorsHash := [2], validatorSet := 1
    time := 0, basicValid := true }

/-- The verifier state of the code after verifying `prevBlkC2`. -/
def sCodeC2 : VerifierState :=
  { trustedBlockID := prevBlkC2.lastBlockID
    lastValidatorSet := some prevBlkC2.validatorSet
    lastChangeHeight := 200 }

/-- The corresponding state of the spec-worded variant after verifying
`prevBlkC2`. -/
def sSpecC2 : VerifierStateSpecC2 :=
  { trustedBlockID := prevBlkC2.lastBlockID
    lastBlock := some prevBlkC2
    lastChangeHeight := 200 }

/-- The C2 response: `curBlkC2` supplied by peer 7. -/
def respC2 : lightBlockResponse := { block := curBlkC2, peer := 7 }

/-- A state for the C3 witness: no flooring occurs. -/
def stC3 : State :=
  { chainID := "test-chain"
    initialHeight := 1
    lastBlockHeight := 100
    lastBlockTime := 1000
    lastBlockID := { hash := [11], partSetHeaderTotal := 0, partSetHeaderHash := [] }
    evidence := { maxAgeNumBlocks := 30, maxAgeDuration := 500 } }

/-- A structurally invalid block for the C4 witness. -/
def blkW4 : LightBlock :=
  { height := 55, hashVal := [1]
    lastBlockID := { hash := [2], partSetHeaderTotal := 0, partSetHeaderHash := [] }
    validatorsHash := [1], nextValidatorsHash := [1], validatorSet := 1
    time := 0, basicValid := false }

/-- The state `SyncAny` returns in the C5 witness. -/
def stC5 : State :=
  { chainID := "test-chain"
    initialHeight := 1
    lastBlockHeight := 500
    lastBlockTime := 900
    lastBlockID := { hash := [3], partSetHeaderTotal := 0, partSetHeaderHash := [] }
    evidence := { maxAgeNumBlocks := 100, maxAgeDuration := 50 } }

/-- Call outcomes for the C5 witness: everything succeeds except
`Backfill`. -/
def oC5 : SyncOutcomes :=
  { initStateProviderErr := none
    syncAny := .ok (stC5, 5)
    bootstrapErr := none
    saveSeenCommitErr := none
    backfillErr := some "retries exhausted" }

/-- Call outcomes for the C10 witness: `initStateProvider` fails. -/
def oC10 : SyncOutcomes :=
  { initStateProviderErr := some "failed to initialize P2P state provider: no verified state"
    syncAny := .error "unreached"
    bootstrapErr := none
    saveSeenCommitErr := none
    backfillErr := none }

/-- Two application snapshots for the C7 witness. -/
def lW7 : List Snapshot :=
  [{ height := 3, format := 1, chunks := 2, hash := [1], metadata := [] },
   { height := 5, format := 2, chunks := 1, hash := [2], metadata := [] }]

/- ### Ordering lemmas for `recentSnapshots` -/

/-- Unfolding of the `sort.Slice` comparison closure. -/
theorem snapshotSortLess_iff (a b : Snapshot) :
    snapshotSortLess a b = true ↔
      b.height < a.height ∨ (a.height = b.height ∧ b.format < a.format) := by
  unfold snapshotSortLess
  split_ifs with h1 h2 <;> simp <;> omega

/-- Unfolding of the induced non-strict order. -/
theorem snapshotSortLe_iff (a b : Snapshot) :
    snapshotSortLe a b = true ↔
      b.height < a.height ∨ (b.height = a.height ∧ b.format ≤ a.format) := by
  unfold snapshotSortLe
  cases h : snapshotSortLess b a
  · have h2 := snapshotSortLess_iff b a
    rw [h] at h2
    simp only [Bool.false_eq_true, false_iff] at h2
    simp only [Bool.not_false]
    simp
    omega
  · have h2 := (snapshotSortLess_iff b a).mpr
    rw [h] at h2
    have h3 := (snapshotSortLess_iff b a).mp h
    simp only [Bool.not_true]
    simp
    omega

/-- Transitivity of the snapshot order. -/
theorem snapshotSortLe_trans (a b c : Snapshot) :
    snapshotSortLe a b = true → snapshotSortLe b c = true → snapshotSortLe a c = true := by
  rw [snapshotSortLe_iff, snapshotSortLe_iff, snapshotSortLe_iff]
  omega

/-- Totality of the snapshot order. -/
theorem snapshotSortLe_total (a b : Snapshot) :
    (snapshotSortLe a b || snapshotSortLe b a) = true := by
  rw [Bool.or_eq_true, snapshotSortLe_iff, snapshotSortLe_iff]
  omega

/- ### Claim theorems -/

/-- C1: in the backfill verifier loop a block is persisted via
`SaveSignedHeader` exactly when its header hash equals the current
trusted block id's hash; on mismatch a `PeerError` naming the supplying
peer is emitted, the block's height is retried and the verifier state
(in particular `trustedBlockID`) is unchanged; on match, after
persisting, `trustedBlockID` becomes the block's `LastBlockID` and
`queue.success` is recorded for the block's height. -/
theorem backfill_verifier_hash_gate (s : VerifierState) (resp : lightBlockResponse) :
    ((verifyStep s resp).2.any isSaveSignedHeader = true ↔
      s.trustedBlockID.hash = resp.block.hashVal) ∧
    (s.trustedBlockID.hash ≠ resp.block.hashVal →
      (verifyStep s resp).2 =
        [.peerError resp.peer, .retryHeight resp.block.height] ∧
      (verifyStep s resp).1 = s) ∧
    (s.trustedBlockID.hash = resp.block.hashVal →
      VerifyEffect.saveSignedHeader resp.block s.trustedBlockID ∈ (verifyStep s resp).2 ∧
      (verifyStep s resp).1.trustedBlockID = resp.block.lastBlockID ∧
      VerifyEffect.successHeight resp.block.height ∈ (verifyStep s resp).2) := by
  by_cases hm : s.trustedBlockID.hash = resp.block.hashVal
  · by_cases hv : s.lastValidatorSet.isSome ∧
        resp.block.validatorsHash ≠ resp.block.nextValidatorsHash
    · simp [verifyStep, hm, hv, isSaveSignedHeader]
    · simp [verifyStep, hm, hv, isSaveSignedHeader]
  · simp [verifyStep, hm, isSaveSignedHeader]

/-- Witness for C1 at the concrete matching input `sW1`, `respW1`. -/
theorem backfill_verifier_hash_gate_witness :
    VerifyEffect.saveSignedHeader respW1.block sW1.trustedBlockID ∈ (verifyStep sW1 respW1).2 ∧
    (verifyStep sW1 respW1).1.trustedBlockID = respW1.block.lastBlockID ∧
    VerifyEffect.successHeight respW1.block.height ∈ (verifyStep sW1 respW1).2 :=
  (backfill_verifier_hash_gate sW1 respW1).2.2 (by decide)

/-- C2 counterexample: the code's validator-change test reads the
CURRENT block's `ValidatorsHash`/`NextValidatorsHash`, not the previous
verified block's as the claim states.  At `sCodeC2`/`respC2` the
previous verified block's two hashes are equal (so under the claim's
reading no `SaveValidatorSets` may happen), yet the code emits one; the
spec-worded variant emits none. -/
theorem backfill_valset_hash_source_counterexample :
    prevBlkC2.validatorsHash = prevBlkC2.nextValidatorsHash ∧
    curBlkC2.validatorsHash ≠ curBlkC2.nextValidatorsHash ∧
    (verifyStep sCodeC2 respC2).2.any isSaveValidatorSets = true ∧
    (verifyStepSpecC2 sSpecC2 respC2).2.any isSaveValidatorSets = false := by
  decide

/-- C2 (amended): during backfill verification of a hash-matching block,
whenever a previously verified block exists (`lastValidatorSet` is set)
and the CURRENT block's `ValidatorsHash` differs from its
`NextValidatorsHash`, `SaveValidatorSets` is called with the previous
validator set over `[block height + 1, lastChangeHeight]` and
`lastChangeHeight` becomes the block's height; otherwise no
`SaveValidatorSets` happens and `lastChangeHeight` is unchanged; when
the queue completes without error a final `SaveValidatorSets` covers
`[terminal height, lastChangeHeight]`, and a queue error is returned. -/
theorem backfill_valset_persistence (s : VerifierState) (resp : lightBlockResponse)
    (hmatch : s.trustedBlockID.hash = resp.block.hashVal) :
    (∀ vs, s.lastValidatorSet = some vs →
      resp.block.validatorsHash ≠ resp.block.nextValidatorsHash →
        VerifyEffect.saveValidatorSets (resp.block.height + 1) s.lastChangeHeight (some vs) ∈
          (verifyStep s resp).2 ∧
        (verifyStep s resp).1.lastChangeHeight = resp.block.height) ∧
    (∀ vs, s.lastValidatorSet = some vs →
      resp.block.validatorsHash = resp.block.nextValidatorsHash →
        (verifyStep s resp).2.any isSaveValidatorSets = false ∧
        (verifyStep s resp).1.lastChangeHeight = s.lastChangeHeight) ∧
    (s.lastValidatorSet = none →
      (verifyStep s resp).2.any isSaveValidatorSets = false ∧
      (verifyStep s resp).1.lastChangeHeight = s.lastChangeHeight) ∧
    (∀ (terminalHeight : Int) (s2 : VerifierState),
      verifierDone terminalHeight s2 none =
        .ok [VerifyEffect.saveValidatorSets terminalHeight s2.lastChangeHeight
              s2.lastValidatorSet]) ∧
    (∀ (terminalHeight : Int) (s2 : VerifierState) (e : String),
      verifierDone terminalHeight s2 (some e) = .error e) := by
  refine ⟨?_, ?_, ?_, fun _ _ => rfl, fun _ _ _ => rfl⟩
  · intro vs hvs hne
    simp [verifyStep, hmatch, hvs, hne, isSaveValidatorSets]
  · intro vs hvs heq
    simp [verifyStep, hmatch, hvs, heq, isSaveValidatorSets]
  · intro hvs
    simp [verifyStep, hmatch, hvs, isSaveValidatorSets]

/-- Witness for C2 (amended) at the concrete input `sCodeC2`, `respC2`. -/
theorem backfill_valset_persistence_witness :
    VerifyEffect.saveValidatorSets (respC2.block.height + 1) sCodeC2.lastChangeHeight (some 2) ∈
      (verifyStep sCodeC2 respC2).2 ∧
    (verifyStep sCodeC2 respC2).1.lastChangeHeight = respC2.block.height :=
  (backfill_valset_persistence sCodeC2 respC2 (by decide)).1 2 (by decide) (by decide)

/-- C3: `Backfill` computes `stopHeight = LastBlockHeight −
MaxAgeNumBlocks` and `stopTime = LastBlockTime − MaxAgeDuration`; when
that `stopHeight` is below `InitialHeight` it is raised to
`InitialHeight` and `stopTime` collapses to `LastBlockTime`; backfill
starts at `LastBlockHeight` with `LastBlockID` as the trusted id. -/
theorem backfill_range_computation (st : State) :
    (Backfill st).startHeight = st.lastBlockHeight ∧
    (Backfill st).trustedBlockID = st.lastBlockID ∧
    (Backfill st).chainID = st.chainID ∧
    (Backfill st).initialHeight = st.initialHeight ∧
    (st.lastBlockHeight - st.evidence.maxAgeNumBlocks < st.initialHeight →
      (Backfill st).stopHeight = st.initialHeight ∧
      (Backfill st).stopTime = st.lastBlockTime) ∧
    (¬ st.lastBlockHeight - st.evidence.maxAgeNumBlocks < st.initialHeight →
      (Backfill st).stopHeight = st.lastBlockHeight - st.evidence.maxAgeNumBlocks ∧
      (Backfill st).stopTime = st.lastBlockTime - st.evidence.maxAgeDuration) := by
  by_cases h : st.lastBlockHeight - st.evidence.maxAgeNumBlocks < st.initialHeight <;>
    simp [Backfill, h]

/-- Witness for C3 at `stC3`, where no flooring occurs. -/
theorem backfill_range_computation_witness :
    (Backfill stC3).stopHeight = stC3.lastBlockHeight - stC3.evidence.maxAgeNumBlocks ∧
    (Backfill stC3).stopTime = stC3.lastBlockTime - stC3.evidence.maxAgeDuration :=
  (backfill_range_computation stC3).2.2.2.2.2 (by decide)

/-- C4: in every fetch-worker iteration the popped peer is appended back
regardless of outcome; a cancellation error makes the worker return; any
other error retries the height without removing the peer; a nil block
retries the height and removes the peer; a block failing `ValidateBasic`
or with the wrong height retries the height and reports a `PeerError`;
otherwise the block is added to the queue. -/
theorem backfill_worker_iteration (height : Int) (peer : NodeID)
    (err : Option FetchError) (lb : Option LightBlock) :
    WorkerEffect.appendPeer peer ∈ (workerStep height peer err lb).1 ∧
    (err = some .canceled →
      workerStep height peer err lb = ([.appendPeer peer], true)) ∧
    (∀ m, err = some (.other m) →
      workerStep height peer err lb =
        ([.appendPeer peer, .retryHeight height], false)) ∧
    (err = some .noConnectedPeers →
      workerStep height peer err lb =
        ([.appendPeer peer, .retryHeight height, .sleep], false)) ∧
    (err = none → lb = none →
      workerStep height peer err lb =
        ([.appendPeer peer, .retryHeight height, .removePeer peer], false)) ∧
    (∀ b, err = none → lb = some b → (¬ b.basicValid = true ∨ b.height ≠ height) →
      workerStep height peer err lb =
        ([.appendPeer peer, .retryHeight height, .peerError peer], false)) ∧
    (∀ b, err = none → lb = some b → b.basicValid = true → b.height = height →
      workerStep height peer err lb = ([.appendPeer peer, .addBlock b peer], false)) := by
  refine ⟨?_, ?_, ?_, ?_, ?_, ?_, ?_⟩
  · cases err with
    | none =>
      cases lb with
      | none => simp [workerStep]
      | some b =>
        simp only [workerStep]
        split <;> simp
    | some fe => cases fe <;> simp [workerStep]
  · intro h; subst h; rfl
  · intro m h; subst h; rfl
  · intro h; subst h; rfl
  · intro h1 h2; subst h1; subst h2; rfl
  · intro b h1 h2 h3
    subst h1; subst h2
    have hr : workerStep height peer none (some b) =
        if ¬ b.basicValid = true ∨ b.height ≠ height then
          ([.appendPeer peer, .retryHeight height, .peerError peer], false)
        else ([.appendPeer peer, .addBlock b peer], false) := rfl
    rw [hr, if_pos h3]
  · intro b h1 h2 h3 h4
    subst h1; subst h2
    have hr : workerStep height peer none (some b) =
        if ¬ b.basicValid = true ∨ b.height ≠ height then
          ([.appendPeer peer, .retryHeight height, .peerError peer], false)
        else ([.appendPeer peer, .addBlock b peer], false) := rfl
    have hc : ¬ (¬ b.basicValid = true ∨ b.height ≠ height) := by
      simp [h3, h4]
    rw [hr, if_neg hc]

/-- Witness for C4 at a concrete invalid block. -/
theorem backfill_worker_iteration_witness :
    workerStep 55 9 none (some blkW4) =
      ([.appendPeer 9, .retryHeight 55, .peerError 9], false) :=
  (backfill_worker_iteration 55 9 none (some blkW4)).2.2.2.2.2.1 blkW4 rfl rfl
    (by decide)

/-- C5: when `SyncAny`, `Bootstrap` and `SaveSeenCommit` all succeed,
`Sync` returns the new state with a nil error even when `Backfill`
errs — the backfill error is never propagated. -/
theorem sync_swallows_backfill_error (sp0 : Option Nat) (o : SyncOutcomes)
    (st : State) (c : Nat)
    (h1 : o.initStateProviderErr = none) (h2 : o.syncAny = .ok (st, c))
    (h3 : o.bootstrapErr = none) (h4 : o.saveSeenCommitErr = none) :
    (Sync none sp0 o).retState = st ∧ (Sync none sp0 o).retErr = none := by
  simp [Sync, h1, h2, h3, h4]

/-- Witness for C5 with a failing `Backfill`. -/
theorem sync_swallows_backfill_error_witness :
    oC5.backfillErr = some "retries exhausted" ∧
    (Sync none none oC5).retState = stC5 ∧ (Sync none none oC5).retErr = none :=
  ⟨rfl, sync_swallows_backfill_error none oC5 stC5 5 rfl rfl rfl rfl⟩

/-- C6: invoking `Sync` while a sync is in progress returns the empty
state and the error "a state sync is already in progress" without
touching the `syncer` or `stateProvider` fields, and releases the
mutex. -/
theorem sync_already_in_progress (s0 : Nat) (sp0 : Option Nat) (o : SyncOutcomes) :
    Sync (some s0) sp0 o =
      { retState := State.empty
        retErr := some "a state sync is already in progress"
        syncerAfter := some s0
        stateProviderAfter := sp0
        lock := .unlocked } := rfl

/-- C7: a `SnapshotsRequest` is answered with one `SnapshotsResponse`
envelope per snapshot, all addressed to the requester, at most 10 of
them, drawn from the application's `ListSnapshots` result and ordered by
descending height then descending format. -/
theorem snapshots_request_reply (p : NodeID) (l : List Snapshot) :
    handleSnapshotsRequest p (.ok l) =
      (recentSnapshots recentSnapshotsConst l).map (fun s =>
        { To := p
          message := { height := s.height, format := s.format, chunks := s.chunks
                       hash := s.hash, metadata := s.metadata } }) ∧
    (handleSnapshotsRequest p (.ok l)).length = min recentSnapshotsConst l.length ∧
    (∀ e ∈ handleSnapshotsRequest p (.ok l), e.To = p ∧ e.message.toSnapshot ∈ l) ∧
    List.Pairwise
      (fun a b => b.height < a.height ∨ (b.height = a.height ∧ b.format ≤ a.format))
      (recentSnapshots recentSnapshotsConst l) := by
  have hperm := List.mergeSort_perm l snapshotSortLe
  have hsorted := List.sorted_mergeSort snapshotSortLe_trans snapshotSortLe_total l
  refine ⟨rfl, ?_, ?_, ?_⟩
  · simp [handleSnapshotsRequest, recentSnapshots, hperm.length_eq]
  · intro e he
    simp only [handleSnapshotsRequest, recentSnapshots, List.mem_map] at he
    obtain ⟨s, hs, rfl⟩ := he
    refine ⟨rfl, ?_⟩
    have hmem : s ∈ l.mergeSort snapshotSortLe :=
      (List.take_sublist _ _).subset hs
    have hml : s ∈ l := hperm.subset hmem
    have heq : (SnapshotsResponseMsg.toSnapshot
        { height := s.height, format := s.format, chunks := s.chunks
          hash := s.hash, metadata := s.metadata }) = s := by
      cases s; rfl
    simpa [heq] using hml
  · have hp : List.Pairwise (fun a b => snapshotSortLe a b = true)
        (recentSnapshots recentSnapshotsConst l) := by
      simp only [recentSnapshots]
      exact List.Pairwise.sublist (List.take_sublist _ _) hsorted
    exact hp.imp (fun hab => (snapshotSortLe_iff _ _).mp hab)

/-- Witness for C7 at the concrete list `lW7`. -/
theorem snapshots_request_reply_witness :
    (handleSnapshotsRequest 4 (.ok lW7)).length = min recentSnapshotsConst lW7.length ∧
    (∀ e ∈ handleSnapshotsRequest 4 (.ok lW7), e.To = 4 ∧ e.message.toSnapshot ∈ lW7) :=
  ⟨(snapshots_request_reply 4 lW7).2.1, (snapshots_request_reply 4 lW7).2.2.1⟩

/-- C8: a `ChunkRequest` whose `LoadSnapshotChunk` call succeeds is
answered with exactly one `ChunkResponse` to the requesting peer echoing
the request's height, format and index, whose `Missing` field is true
iff the returned chunk is nil. -/
theorem chunk_request_reply (p : NodeID) (msg : ChunkRequestMsg) (chunk : Option Bytes) :
    handleChunkRequest p msg (.ok chunk) =
      [{ To := p
         message := { height := msg.height, format := msg.format, index := msg.index
                      chunk := chunk, missing := chunk.isNone } }] ∧
    (chunk.isNone = true ↔ chunk = none) :=
  ⟨rfl, Option.isNone_iff_eq_none⟩

/-- Witness for C8 at a concrete missing chunk. -/
theorem chunk_request_reply_witness :
    handleChunkRequest 2 { height := 7, format := 1, index := 3 } (.ok none) =
      [{ To := 2
         message := { height := 7, format := 1, index := 3
                      chunk := none, missing := (none : Option Bytes).isNone } }] ∧
    ((none : Option Bytes).isNone = true ↔ (none : Option Bytes) = none) :=
  chunk_request_reply 2 { height := 7, format := 1, index := 3 } none

/-- C9: the four channel descriptors carry ids 0x60-0x63, priorities
6/3/5/2, receive-message caps 4 MB / 16 MB / 10 MB / 100 kB, receive
buffers of 128, and send queues of 10 (snapshot, light block, params)
and 4 (chunk). -/
theorem channel_descriptor_values :
    snapshotChannelDescriptor.id = 0x60 ∧
    chunkChannelDescriptor.id = 0x61 ∧
    lightBlockChannelDescriptor.id = 0x62 ∧
    paramsChannelDescriptor.id = 0x63 ∧
    snapshotChannelDescriptor.priority = 6 ∧
    chunkChannelDescriptor.priority = 3 ∧
    lightBlockChannelDescriptor.priority = 5 ∧
    paramsChannelDescriptor.priority = 2 ∧
    snapshotChannelDescriptor.recvMessageCapacity = 4000000 ∧
    chunkChannelDescriptor.recvMessageCapacity = 16000000 ∧
    lightBlockChannelDescriptor.recvMessageCapacity = 10000000 ∧
    paramsChannelDescriptor.recvMessageCapacity = 100000 ∧
    snapshotChannelDescriptor.recvBufferCapacity = 128 ∧
    chunkChannelDescriptor.recvBufferCapacity = 128 ∧
    lightBlockChannelDescriptor.recvBufferCapacity = 128 ∧
    paramsChannelDescriptor.recvBufferCapacity = 128 ∧
    snapshotChannelDescriptor.sendQueueCapacity = 10 ∧
    chunkChannelDescriptor.sendQueueCapacity = 4 ∧
    lightBlockChannelDescriptor.sendQueueCapacity = 10 ∧
    paramsChannelDescriptor.sendQueueCapacity = 10 := by
  decide

/-- C10: the `initStateProvider`-failure return path of `Sync` keeps the
exclusive reactor mutex held (so any later exclusive acquisition
blocks), returns the wrapped error with `syncer` still nil, while the
already-in-progress path and every path past provider initialization
release the mutex. -/
theorem sync_mutex_not_released (sp0 : Option Nat) (o : SyncOutcomes) (e : String)
    (h : o.initStateProviderErr = some e) :
    (Sync none sp0 o).lock = LockState.lockedExclusive ∧
    (Sync none sp0 o).retErr = some e ∧
    (Sync none sp0 o).syncerAfter = none ∧
    mtxLock (Sync none sp0 o).lock = none ∧
    (∀ (s0 : Nat) (sp : Option Nat) (o2 : SyncOutcomes),
      (Sync (some s0) sp o2).lock = LockState.unlocked) ∧
    (∀ (sp : Option Nat) (o2 : SyncOutcomes), o2.initStateProviderErr = none →
      (Sync none sp o2).lock = LockState.unlocked) := by
  refine ⟨by simp [Sync, h], by simp [Sync, h], by simp [Sync, h],
    by simp [Sync, h, mtxLock], fun s0 sp o2 => rfl, ?_⟩
  intro sp o2 h2
  cases h3 : o2.syncAny with
  | error e2 => simp [Sync, h2, h3]
  | ok pr =>
    obtain ⟨st, c⟩ := pr
    cases h4 : o2.bootstrapErr <;> cases h5 : o2.saveSeenCommitErr <;>
      simp [Sync, h2, h3, h4, h5]

/-- Witness for C10 at the concrete outcome `oC10`. -/
theorem sync_mutex_not_released_witness :
    (Sync none none oC10).lock = LockState.lockedExclusive ∧
    (Sync none none oC10).retErr =
      some "failed to initialize P2P state provider: no verified state" ∧
    (Sync none none oC10).syncerAfter = none ∧
    mtxLock (Sync none none oC10).lock = none :=
  ⟨(sync_mutex_not_released none oC10 _ rfl).1,
   (sync_mutex_not_released none oC10 _ rfl).2.1,
   (sync_mutex_not_released none oC10 _ rfl).2.2.1,
   (sync_mutex_not_released none oC10 _ rfl).2.2.2.1⟩

end StateSync
